import Mathlib

/-!
Shallow embedding of the session/client-acquisition layer of the athenadriver
repository: `connector.go` (SQLConnector.Connect, the process-wide client cache)
and `wg.go` (Workgroup, CreateWGRemotely, getWG).  External collaborators
(configuration loading, the remote Athena service, metrics/logging sinks) are
passed in as explicit oracle functions; pointer-valued Go data is `Option`.
-/

namespace Athenadriver

/-- Model of Go `strconv.ParseBool`: `.ok` exactly on the twelve literals it
accepts, `.error` on everything else. -/
def parseBool (s : String) : Except Unit Bool :=
  if s = "1" ∨ s = "t" ∨ s = "T" ∨ s = "TRUE" ∨ s = "true" ∨ s = "True" then Except.ok true
  else if s = "0" ∨ s = "f" ∨ s = "F" ∨ s = "FALSE" ∨ s = "false" ∨ s = "False" then
    Except.ok false
  else Except.error ()

/-- Line 88 of connector.go: `if ok, _ := strconv.ParseBool(os.Getenv(...)); ok` —
the parsed value with the parse error discarded, so an unset (empty) or
unparsable string counts as `false`. -/
def parseBoolValue (s : String) : Bool :=
  match parseBool s with
  | Except.ok b => b
  | Except.error _ => false

/-- The configuration fields that `Connect` consumes through accessors; per the
source an absent value is the empty string, not a distinct "unset". -/
structure Config where
  region : String
  awsProfile : String
  accessID : String
  secretAccessKey : String
  sessionToken : String
deriving DecidableEq

def Config.GetRegion (c : Config) : String := c.region

def Config.GetAWSProfile (c : Config) : String := c.awsProfile

def Config.GetAccessID (c : Config) : String := c.accessID

def Config.GetSecretAccessKey (c : Config) : String := c.secretAccessKey

def Config.GetSessionToken (c : Config) : String := c.sessionToken

/-- The process environment as `Connect` sees it: the raw value of the
`AWS_SDK_LOAD_CONFIG` variable (`os.Getenv` yields `""` when unset). -/
structure Env where
  awsSdkLoadConfig : String
deriving DecidableEq

/-- The three mutually exclusive authentication strategies of connector.go. -/
inductive AuthStrategy
  | envDelegated
  | staticCreds
  | regionOnly
deriving DecidableEq

/-- The if / else-if / else chain of connector.go lines 88, 104 and 118. -/
def resolveStrategy (c : Config) (env : Env) : AuthStrategy :=
  if parseBoolValue env.awsSdkLoadConfig then AuthStrategy.envDelegated
  else if c.GetAccessID ≠ "" then AuthStrategy.staticCreds
  else AuthStrategy.regionOnly

/-- The per-branch cache key of connector.go lines 90, 105 and 119. -/
def cacheKeyOf (c : Config) (env : Env) : String :=
  match resolveStrategy c env with
  | AuthStrategy.envDelegated => "#" ++ c.GetAWSProfile ++ "#"
  | AuthStrategy.staticCreds => c.GetRegion ++ "##" ++ c.GetAccessID
  | AuthStrategy.regionOnly => c.GetRegion ++ "##"

/-- The four call shapes of the external configuration-loading collaborator
(connector.go lines 97-102, 112-115, 126-127). -/
inductive LoadRequest
  | withProfile (profile : String)
  | defaultCfg
  | withStaticCreds (region accessID secret token : String)
  | withRegion (region : String)
deriving DecidableEq

/-- Which load request each strategy branch issues on a cache miss. -/
def loadRequestOf (c : Config) (env : Env) : LoadRequest :=
  match resolveStrategy c env with
  | AuthStrategy.envDelegated =>
      if c.GetAWSProfile ≠ "" then LoadRequest.withProfile c.GetAWSProfile
      else LoadRequest.defaultCfg
  | AuthStrategy.staticCreds =>
      LoadRequest.withStaticCreds c.GetRegion c.GetAccessID c.GetSecretAccessKey
        c.GetSessionToken
  | AuthStrategy.regionOnly => LoadRequest.withRegion c.GetRegion

/-- Opaque `aws.Config` value; `zero` is the zero value of the declared Go
variable `var awsConfig aws.Config`. -/
structure AwsConfig where
  val : Nat
deriving DecidableEq

def AwsConfig.zero : AwsConfig := ⟨0⟩

/-- Opaque `*athena.Client` target; `NewFromConfig` (line 136) always yields a
non-nil client built from the given configuration. -/
structure Client where
  cfg : AwsConfig
deriving DecidableEq

def NewFromConfig (c : AwsConfig) : Client := ⟨c⟩

abbrev LoadErr := String

/-- The external configuration-loading collaborator (`config.LoadDefaultConfig`). -/
abbrev Loader := LoadRequest → Except LoadErr AwsConfig

/-- Opaque metrics scope; either the default derived from a Config or an
externally supplied override. -/
inductive Scope
  | fromConfig (c : Config)
  | external (n : Nat)
deriving DecidableEq

/-- Opaque logger, same shape as `Scope`. -/
inductive Logger
  | fromConfig (c : Config)
  | external (n : Nat)
deriving DecidableEq

structure DriverTracer where
  scope : Scope
  logger : Logger
deriving DecidableEq

/-- Modelled from the spec: `NewDefaultObservability` is defined outside this
excerpt; per spec section 4.3 it installs a default metrics scope and logger
derived from the Configuration. -/
def NewDefaultObservability (c : Config) : DriverTracer :=
  ⟨Scope.fromConfig c, Logger.fromConfig c⟩

def DriverTracer.SetScope (t : DriverTracer) (s : Scope) : DriverTracer :=
  { t with scope := s }

def DriverTracer.SetLogger (t : DriverTracer) (l : Logger) : DriverTracer :=
  { t with logger := l }

/-- The ambient context values: the optional metrics scope stored under
`MetricsKey` and the optional logger stored under `LoggerKey` (lines 76-81);
`none` models an absent value or a failed type assertion. -/
structure Ctx where
  metricsValue : Option Scope
  loggerValue : Option Logger
deriving DecidableEq

/-- Lines 75-81 of connector.go: a freshly constructed default tracer, then the
metrics-scope override, then the logger override. -/
def tracerFor (ctx : Ctx) (c : Config) : DriverTracer :=
  let t0 := NewDefaultObservability c
  let t1 := match ctx.metricsValue with
    | some s => t0.SetScope s
    | none => t0
  match ctx.loggerValue with
  | some l => t1.SetLogger l
  | none => t1

/-- The process-wide map `clients` (connector.go line 43).  Values are Go
pointers, so an entry can in principle hold `none` (a nil pointer). -/
abbrev Cache := List (String × Option Client)

def cacheLookup (m : Cache) (k : String) : Option (Option Client) :=
  match m with
  | [] => none
  | (k1, v) :: rest => if k1 = k then some v else cacheLookup rest k

/-- Go map assignment `clients[cacheKey] = athenaClient` (line 137). -/
def cacheInsert (m : Cache) (k : String) (v : Option Client) : Cache :=
  match m with
  | [] => [(k, v)]
  | (k1, v1) :: rest => if k1 = k then (k, v) :: rest else (k1, v1) :: cacheInsert rest k v

/-- The observable events of one `Connect` execution, in program order. -/
inductive Event
  | rlock
  | runlock
  | lock
  | unlock
  | loadConfig (r : LoadRequest)
  | newFromConfig
  | store (key : String)
  | incFailureCounter
deriving DecidableEq

inductive LockState
  | free
  | rheld
  | wheld
deriving DecidableEq

def stepLock (s : LockState) : Event → LockState
  | Event.rlock => LockState.rheld
  | Event.runlock => LockState.free
  | Event.lock => LockState.wheld
  | Event.unlock => LockState.free
  | _ => s

/-- Each event of a trace paired with the lock state in force just before it. -/
def statesBefore (s : LockState) : List Event → List (LockState × Event)
  | [] => []
  | e :: rest => (s, e) :: statesBefore (stepLock s e) rest

def isFree : LockState → Bool
  | LockState.free => true
  | _ => false

def isWheld : LockState → Bool
  | LockState.wheld => true
  | _ => false

/-- True when every configuration-load and every client-construction event of
the trace happens with no lock held. -/
def constructionOutsideLocks (tr : List Event) : Bool :=
  (statesBefore LockState.free tr).all fun p =>
    match p.2 with
    | Event.loadConfig _ => isFree p.1
    | Event.newFromConfig => isFree p.1
    | _ => true

/-- True when every configuration-load event happens with no lock held. -/
def loadsOutsideLocks (tr : List Event) : Bool :=
  (statesBefore LockState.free tr).all fun p =>
    match p.2 with
    | Event.loadConfig _ => isFree p.1
    | _ => true

/-- True when every client-construction and every store event happens while the
write lock is held. -/
def constructionUnderWriteLock (tr : List Event) : Bool :=
  (statesBefore LockState.free tr).all fun p =>
    match p.2 with
    | Event.newFromConfig => isWheld p.1
    | Event.store _ => isWheld p.1
    | _ => true

structure SQLConnector where
  config : Config
  tracer : DriverTracer
deriving DecidableEq

/-- The Connection value built at connector.go lines 142-145. -/
structure Connection where
  athenaAPI : Option Client
  connector : SQLConnector
deriving DecidableEq

/-- Everything one `Connect` call returns or effects: the Go return pair
(`conn`, `err`), the mutated receiver, the cache after the call, the number of
failure-counter increments, the loader invocations, and the event trace. -/
structure ConnectOutcome where
  conn : Option Connection
  err : Option LoadErr
  connector : SQLConnector
  cache : Cache
  failureIncs : Nat
  loadCalls : List LoadRequest
  events : List Event
deriving DecidableEq

/-- Connector.go lines 130-147: the failure-counter branch (130-133), the
construct-and-insert branch under the write lock (134-139), and the returned
Connection (141-147).  The success-timer metric is not tracked. -/
def connectTail (c : SQLConnector) (cacheKey : String) (athenaClient : Option Client)
    (err : Option LoadErr) (awsConfig : AwsConfig) (cache : Cache)
    (loadCalls : List LoadRequest) (events : List Event) : ConnectOutcome :=
  match err with
  | some e =>
      { conn := none, err := some e, connector := c, cache := cache, failureIncs := 1,
        loadCalls := loadCalls, events := events ++ [Event.incFailureCounter] }
  | none =>
      match athenaClient with
      | none =>
          { conn := some ⟨some (NewFromConfig awsConfig), c⟩, err := none, connector := c,
            cache := cacheInsert cache cacheKey (some (NewFromConfig awsConfig)),
            failureIncs := 0, loadCalls := loadCalls,
            events := events ++
              [Event.lock, Event.newFromConfig, Event.store cacheKey, Event.unlock] }
      | some client =>
          { conn := some ⟨some client, c⟩, err := none, connector := c, cache := cache,
            failureIncs := 0, loadCalls := loadCalls, events := events }

/-- SQLConnector.Connect (connector.go lines 73-148).  Each of the three
strategy branches (lines 88-129) performs the same RLock / lookup / RUnlock
skeleton and, on a miss, exactly one loader call whose shape is the branch's
`loadRequestOf`; the shared skeleton is therefore written once, parameterised
by `cacheKeyOf` and `loadRequestOf` which reproduce the per-branch values. -/
def Connect (c : SQLConnector) (ctx : Ctx) (env : Env) (loader : Loader) (cache : Cache) :
    ConnectOutcome :=
  match cacheLookup cache (cacheKeyOf c.config env) with
  | some client =>
      connectTail { c with tracer := tracerFor ctx c.config } (cacheKeyOf c.config env)
        client none AwsConfig.zero cache [] [Event.rlock, Event.runlock]
  | none =>
      match loader (loadRequestOf c.config env) with
      | Except.ok cfg =>
          connectTail { c with tracer := tracerFor ctx c.config } (cacheKeyOf c.config env)
            none none cfg cache [loadRequestOf c.config env]
            [Event.rlock, Event.runlock, Event.loadConfig (loadRequestOf c.config env)]
      | Except.error e =>
          connectTail { c with tracer := tracerFor ctx c.config } (cacheKeyOf c.config env)
            none (some e) AwsConfig.zero cache [loadRequestOf c.config env]
            [Event.rlock, Event.runlock, Event.loadConfig (loadRequestOf c.config env)]

/-- One `Connect` invocation in a sequence: its receiver, context, environment
and loader collaborator. -/
structure Op where
  conn : SQLConnector
  ctx : Ctx
  env : Env
  loader : Loader

/-- The cache after running a sequence of `Connect` operations. -/
def runConnects (ops : List Op) (m : Cache) : Cache :=
  match ops with
  | [] => m
  | op :: rest => runConnects rest (Connect op.conn op.ctx op.env op.loader m).cache

/-- No entry of the client map is a nil pointer. -/
def CacheWF (m : Cache) : Prop := ∀ p ∈ m, p.2 ≠ none

/-! Assoc-map lemmas for the client cache. -/

theorem cacheLookup_insert_self (m : Cache) (k : String) (v : Option Client) :
    cacheLookup (cacheInsert m k v) k = some v := by
  induction m with
  | nil => simp [cacheInsert, cacheLookup]
  | cons p rest ih =>
      obtain ⟨k1, v1⟩ := p
      by_cases h : k1 = k
      · simp [cacheInsert, cacheLookup, h]
      · simp [cacheInsert, cacheLookup, h, ih]

theorem cacheLookup_insert_ne (m : Cache) (k k1 : String) (v : Option Client)
    (h : k1 ≠ k) : cacheLookup (cacheInsert m k v) k1 = cacheLookup m k1 := by
  induction m with
  | nil => simp [cacheInsert, cacheLookup, h, Ne.symm h]
  | cons p rest ih =>
      obtain ⟨k2, v2⟩ := p
      by_cases h2 : k2 = k
      · subst h2
        simp [cacheInsert, cacheLookup, h, Ne.symm h]
      · by_cases h3 : k2 = k1 <;> simp [cacheInsert, cacheLookup, h, h2, h3, ih]

theorem cacheLookup_mem (m : Cache) (k : String) (v : Option Client)
    (h : cacheLookup m k = some v) : (k, v) ∈ m := by
  induction m with
  | nil => simp [cacheLookup] at h
  | cons p rest ih =>
      obtain ⟨k1, v1⟩ := p
      by_cases h1 : k1 = k
      · subst h1
        simp [cacheLookup] at h
        subst h
        exact List.mem_cons_self _ _
      · simp [cacheLookup, h1] at h
        exact List.mem_cons_of_mem _ (ih h)

theorem cacheWF_insert (m : Cache) (k : String) (cl : Client) (h : CacheWF m) :
    CacheWF (cacheInsert m k (some cl)) := by
  induction m with
  | nil =>
      intro p hp
      simp [cacheInsert] at hp
      subst hp
      simp
  | cons q rest ih =>
      obtain ⟨k1, v1⟩ := q
      have hrest : CacheWF rest := fun p hp => h p (List.mem_cons_of_mem _ hp)
      have hv1 : v1 ≠ none := h (k1, v1) (List.mem_cons_self _ _)
      by_cases h1 : k1 = k
      · intro p hp
        simp [cacheInsert, h1] at hp
        rcases hp with hp | hp
        · subst hp; simp
        · exact hrest p hp
      · intro p hp
        simp [cacheInsert, h1] at hp
        rcases hp with hp | hp
        · subst hp; exact hv1
        · exact ih hrest p hp

/-! Scenario lemmas for `Connect`: one for each of the four possible shapes of
one execution (hit on a non-nil entry, hit on a nil entry, miss with the loader
succeeding, miss with the loader failing). -/

theorem Connect_hit (c : SQLConnector) (ctx : Ctx) (env : Env) (loader : Loader)
    (m : Cache) (cl : Client)
    (h : cacheLookup m (cacheKeyOf c.config env) = some (some cl)) :
    Connect c ctx env loader m =
      { conn := some ⟨some cl, { c with tracer := tracerFor ctx c.config }⟩, err := none,
        connector := { c with tracer := tracerFor ctx c.config }, cache := m,
        failureIncs := 0, loadCalls := [], events := [Event.rlock, Event.runlock] } := by
  unfold Connect
  rw [h]
  rfl

theorem Connect_hit_nil (c : SQLConnector) (ctx : Ctx) (env : Env) (loader : Loader)
    (m : Cache) (h : cacheLookup m (cacheKeyOf c.config env) = some none) :
    Connect c ctx env loader m =
      { conn := some ⟨some (NewFromConfig AwsConfig.zero),
          { c with tracer := tracerFor ctx c.config }⟩,
        err := none, connector := { c with tracer := tracerFor ctx c.config },
        cache := cacheInsert m (cacheKeyOf c.config env)
          (some (NewFromConfig AwsConfig.zero)),
        failureIncs := 0, loadCalls := [],
        events := [Event.rlock, Event.runlock, Event.lock, Event.newFromConfig,
          Event.store (cacheKeyOf c.config env), Event.unlock] } := by
  unfold Connect
  rw [h]
  rfl

theorem Connect_miss_ok (c : SQLConnector) (ctx : Ctx) (env : Env) (loader : Loader)
    (m : Cache) (cfg : AwsConfig)
    (hmiss : cacheLookup m (cacheKeyOf c.config env) = none)
    (hok : loader (loadRequestOf c.config env) = Except.ok cfg) :
    Connect c ctx env loader m =
      { conn := some ⟨some (NewFromConfig cfg), { c with tracer := tracerFor ctx c.config }⟩,
        err := none, connector := { c with tracer := tracerFor ctx c.config },
        cache := cacheInsert m (cacheKeyOf c.config env) (some (NewFromConfig cfg)),
        failureIncs := 0, loadCalls := [loadRequestOf c.config env],
        events := [Event.rlock, Event.runlock, Event.loadConfig (loadRequestOf c.config env),
          Event.lock, Event.newFromConfig, Event.store (cacheKeyOf c.config env),
          Event.unlock] } := by
  unfold Connect
  rw [hmiss, hok]
  rfl

theorem Connect_miss_error (c : SQLConnector) (ctx : Ctx) (env : Env) (loader : Loader)
    (m : Cache) (e : LoadErr)
    (hmiss : cacheLookup m (cacheKeyOf c.config env) = none)
    (herr : loader (loadRequestOf c.config env) = Except.error e) :
    Connect c ctx env loader m =
      { conn := none, err := some e,
        connector := { c with tracer := tracerFor ctx c.config }, cache := m,
        failureIncs := 1, loadCalls := [loadRequestOf c.config env],
        events := [Event.rlock, Event.runlock, Event.loadConfig (loadRequestOf c.config env),
          Event.incFailureCounter] } := by
  unfold Connect
  rw [hmiss, herr]
  rfl

/-- One `Connect` call either leaves the cache untouched or inserts one non-nil
client at the resolved key, and in the latter case the pre-call lookup at that
key was a miss or a nil entry. -/
theorem connect_cache_cases (c : SQLConnector) (ctx : Ctx) (env : Env) (loader : Loader)
    (m : Cache) :
    (Connect c ctx env loader m).cache = m ∨
    ∃ cl : Client,
      (Connect c ctx env loader m).cache =
          cacheInsert m (cacheKeyOf c.config env) (some cl) ∧
        (cacheLookup m (cacheKeyOf c.config env) = none ∨
          cacheLookup m (cacheKeyOf c.config env) = some none) := by
  rcases hl : cacheLookup m (cacheKeyOf c.config env) with _ | cl
  · rcases hr : loader (loadRequestOf c.config env) with e | cfg
    · left
      rw [Connect_miss_error c ctx env loader m e hl hr]
    · right
      exact ⟨NewFromConfig cfg, by rw [Connect_miss_ok c ctx env loader m cfg hl hr],
        Or.inl rfl⟩
  · rcases cl with _ | cl0
    · right
      exact ⟨NewFromConfig AwsConfig.zero, by rw [Connect_hit_nil c ctx env loader m hl],
        Or.inr rfl⟩
    · left
      rw [Connect_hit c ctx env loader m cl0 hl]

theorem connect_preserves_cacheWF (c : SQLConnector) (ctx : Ctx) (env : Env)
    (loader : Loader) (m : Cache) (h : CacheWF m) :
    CacheWF (Connect c ctx env loader m).cache := by
  rcases connect_cache_cases c ctx env loader m with hc | ⟨cl, hc, _⟩
  · rw [hc]; exact h
  · rw [hc]; exact cacheWF_insert m _ cl h

theorem connect_preserves_lookup (c : SQLConnector) (ctx : Ctx) (env : Env)
    (loader : Loader) (m : Cache) (k : String) (v : Option Client) (hwf : CacheWF m)
    (h : cacheLookup m k = some v) :
    cacheLookup (Connect c ctx env loader m).cache k = some v := by
  rcases connect_cache_cases c ctx env loader m with hc | ⟨cl, hc, hmiss⟩
  · rw [hc]; exact h
  · rw [hc]
    by_cases hk : k = cacheKeyOf c.config env
    · exfalso
      subst hk
      rcases hmiss with hm | hm
      · rw [h] at hm; exact Option.noConfusion hm
      · rw [h] at hm
        exact hwf (cacheKeyOf c.config env, v) (cacheLookup_mem m _ v h)
          (Option.some.inj hm)
    · rw [cacheLookup_insert_ne m _ k _ hk]
      exact h

/-- A successful `Connect` leaves a non-nil client stored under the resolved key. -/
theorem connect_success_lookup (c : SQLConnector) (ctx : Ctx) (env : Env)
    (loader : Loader) (m : Cache) (hok : (Connect c ctx env loader m).err = none) :
    ∃ cl : Client,
      cacheLookup (Connect c ctx env loader m).cache (cacheKeyOf c.config env) =
        some (some cl) := by
  rcases hl : cacheLookup m (cacheKeyOf c.config env) with _ | cl
  · rcases hr : loader (loadRequestOf c.config env) with e | cfg
    · rw [Connect_miss_error c ctx env loader m e hl hr] at hok
      exact Option.noConfusion hok
    · rw [Connect_miss_ok c ctx env loader m cfg hl hr]
      exact ⟨NewFromConfig cfg, cacheLookup_insert_self m _ _⟩
  · rcases cl with _ | cl0
    · rw [Connect_hit_nil c ctx env loader m hl]
      exact ⟨NewFromConfig AwsConfig.zero, cacheLookup_insert_self m _ _⟩
    · rw [Connect_hit c ctx env loader m cl0 hl]
      exact ⟨cl0, hl⟩

theorem runConnects_append (ops1 ops2 : List Op) (m : Cache) :
    runConnects (ops1 ++ ops2) m = runConnects ops2 (runConnects ops1 m) := by
  induction ops1 generalizing m with
  | nil => rfl
  | cons op rest ih => simp [runConnects, ih]

theorem runConnects_preserves (ops : List Op) (m : Cache) (hwf : CacheWF m) :
    CacheWF (runConnects ops m) ∧
    ∀ k v, cacheLookup m k = some v → cacheLookup (runConnects ops m) k = some v := by
  induction ops generalizing m with
  | nil => exact ⟨hwf, fun _ _ h => h⟩
  | cons op rest ih =>
      have h1 := connect_preserves_cacheWF op.conn op.ctx op.env op.loader m hwf
      obtain ⟨ha, hb⟩ := ih (Connect op.conn op.ctx op.env op.loader m).cache h1
      refine ⟨ha, fun k v h => hb k v ?_⟩
      exact connect_preserves_lookup op.conn op.ctx op.env op.loader m k v hwf h

/-! Embedding of wg.go: Workgroup, CreateWGRemotely, getWG. -/

/-- An Athena tag (`types.Tag`). -/
structure Tag where
  key : String
  value : String
deriving DecidableEq

/-- Modelled from the spec: `WGTags` is the workgroup tag-set value object
defined outside this excerpt; `Get` returns the stored tag list. -/
structure WGTags where
  tags : List Tag
deriving DecidableEq

def WGTags.Get (t : WGTags) : List Tag := t.tags

/-- Modelled from the spec: `NewWGTags` builds an empty tag set. -/
def NewWGTags : WGTags := ⟨[]⟩

/-- Opaque `types.WorkGroupConfiguration`. -/
structure WorkGroupConfiguration where
  val : Nat
deriving DecidableEq

/-- The Workgroup wrapper (wg.go lines 32-36); `Config` is a Go pointer. -/
structure Workgroup where
  Name : String
  Config : Option WorkGroupConfiguration
  Tags : WGTags
deriving DecidableEq

abbrev RemoteErr := String

/-- The create-workgroup request; `Tags = none` models an absent tags field,
distinct from a present empty list. -/
structure CreateWorkGroupInput where
  Configuration : Option WorkGroupConfiguration
  Name : Option String
  Tags : Option (List Tag)
deriving DecidableEq

/-- CreateWGRemotely (wg.go lines 80-96): two distinct request shapes keyed on
`len(tags) == 0`, the remote collaborator's error returned unchanged.  The
result also exposes the request that was issued. -/
def Workgroup.CreateWGRemotely (w : Workgroup)
    (svc : CreateWorkGroupInput → Option RemoteErr) :
    CreateWorkGroupInput × Option RemoteErr :=
  if (w.Tags.Get).length = 0 then
    ({ Configuration := w.Config, Name := some w.Name, Tags := none },
      svc { Configuration := w.Config, Name := some w.Name, Tags := none })
  else
    ({ Configuration := w.Config, Name := some w.Name, Tags := some w.Tags.Get },
      svc { Configuration := w.Config, Name := some w.Name, Tags := some w.Tags.Get })

/-- Modelled from the spec: the designated nil-API error `ErrAthenaNilAPI` is
defined outside this excerpt; `remote e` wraps an error of the remote call. -/
inductive WGErr
  | athenaNilAPI
  | remote (e : RemoteErr)
deriving DecidableEq

def ErrAthenaNilAPI : WGErr := WGErr.athenaNilAPI

structure GetWorkGroupInput where
  WorkGroup : Option String
deriving DecidableEq

/-- Opaque `types.WorkGroup` descriptor. -/
structure WorkGroupDesc where
  val : Nat
deriving DecidableEq

/-- The remote get-workgroup response; its `WorkGroup` field is a Go pointer. -/
structure GetWorkGroupOutput where
  WorkGroup : Option WorkGroupDesc
deriving DecidableEq

/-- The Go return pair of `getWG` plus the request sent to the remote
collaborator; `remoteInput = none` means no remote call was made. -/
structure GetWGResult where
  wg : Option WorkGroupDesc
  err : Option WGErr
  remoteInput : Option GetWorkGroupInput
deriving DecidableEq

/-- getWG (wg.go lines 65-77). -/
def getWG (athenaService : Option Client) (nm : String)
    (remote : GetWorkGroupInput → Except RemoteErr GetWorkGroupOutput) : GetWGResult :=
  match athenaService with
  | none => ⟨none, some ErrAthenaNilAPI, none⟩
  | some _ =>
      match remote ⟨some nm⟩ with
      | Except.error e => ⟨none, some (WGErr.remote e), some ⟨some nm⟩⟩
      | Except.ok out => ⟨out.WorkGroup, none, some ⟨some nm⟩⟩

/-! Concrete sample values used to instantiate the theorems below. -/

def sampleConfig : Config := ⟨"r", "", "", "", ""⟩

def sampleConnector : SQLConnector := ⟨sampleConfig, NewDefaultObservability sampleConfig⟩

def sampleCtx : Ctx := ⟨none, none⟩

def sampleEnv : Env := ⟨""⟩

def okLoader : Loader := fun _ => Except.ok ⟨1⟩

def failLoader : Loader := fun _ => Except.error "boom"

def sampleOp : Op := ⟨sampleConnector, sampleCtx, sampleEnv, okLoader⟩

def sampleWG : Workgroup := ⟨"wgname", some ⟨2⟩, ⟨[⟨"team", "data"⟩]⟩⟩

def sampleSvc : CreateWorkGroupInput → Option RemoteErr := fun _ => none

def sampleRemote : GetWorkGroupInput → Except RemoteErr GetWorkGroupOutput :=
  fun _ => Except.ok ⟨some ⟨7⟩⟩

/-- Claim C1: `Connect` resolves exactly one authentication strategy in the
fixed precedence order — environment-delegated if the env flag parses as a true
boolean (unset or unparsable counting as false), else static-credentials if the
access id is non-empty, else region-only — computing the cache keys
`#profile#`, `region##accessid` and `region##` respectively; in particular the
example configuration with region "us-east-1" and the flag unset yields the key
"us-east-1##". -/
theorem connect_strategy_and_cacheKey (c : Config) (env : Env) :
    (parseBoolValue env.awsSdkLoadConfig = true →
      resolveStrategy c env = AuthStrategy.envDelegated ∧
        cacheKeyOf c env = "#" ++ c.GetAWSProfile ++ "#") ∧
    (parseBoolValue env.awsSdkLoadConfig = false → c.GetAccessID ≠ "" →
      resolveStrategy c env = AuthStrategy.staticCreds ∧
        cacheKeyOf c env = c.GetRegion ++ "##" ++ c.GetAccessID) ∧
    (parseBoolValue env.awsSdkLoadConfig = false → c.GetAccessID = "" →
      resolveStrategy c env = AuthStrategy.regionOnly ∧
        cacheKeyOf c env = c.GetRegion ++ "##") ∧
    cacheKeyOf ⟨"us-east-1", "", "", "", ""⟩ ⟨""⟩ = "us-east-1##" := by
  refine ⟨fun hflag => ?_, fun hflag hacc => ?_, fun hflag hacc => ?_, by decide⟩
  · constructor <;> simp [resolveStrategy, cacheKeyOf, hflag]
  · constructor <;> simp [resolveStrategy, cacheKeyOf, hflag, hacc]
  · constructor <;> simp [resolveStrategy, cacheKeyOf, hflag, hacc]

/-- Witness for C1: the static-credentials strategy at a concrete input. -/
theorem connect_strategy_and_cacheKey_witness :
    parseBoolValue (Env.mk "").awsSdkLoadConfig = false ∧
    (Config.mk "us-west-2" "" "AKIA" "sec" "tok").GetAccessID ≠ "" ∧
    (resolveStrategy ⟨"us-west-2", "", "AKIA", "sec", "tok"⟩ ⟨""⟩ =
        AuthStrategy.staticCreds ∧
      cacheKeyOf ⟨"us-west-2", "", "AKIA", "sec", "tok"⟩ ⟨""⟩ =
        (Config.mk "us-west-2" "" "AKIA" "sec" "tok").GetRegion ++ "##" ++
          (Config.mk "us-west-2" "" "AKIA" "sec" "tok").GetAccessID) :=
  ⟨by decide, by decide,
    (connect_strategy_and_cacheKey ⟨"us-west-2", "", "AKIA", "sec", "tok"⟩ ⟨""⟩).2.1
      (by decide) (by decide)⟩

/-- Claim C2: with the env flag disabled and an empty access id, after a first
successful `Connect` a second `Connect` with the identical configuration finds
a non-nil handle under the same cache key, invokes the loader zero times, takes
no lock other than the read lock (so the construction branch is not taken), and
leaves the cache unchanged. -/
theorem connect_second_call_hits_cache (c : SQLConnector) (ctx : Ctx) (env : Env)
    (loader : Loader) (cache : Cache)
    (hflag : parseBoolValue env.awsSdkLoadConfig = false)
    (hacc : c.config.GetAccessID = "")
    (hok : (Connect c ctx env loader cache).err = none) :
    ∃ cl : Client,
      cacheLookup (Connect c ctx env loader cache).cache (cacheKeyOf c.config env) =
          some (some cl) ∧
        (Connect c ctx env loader (Connect c ctx env loader cache).cache).loadCalls = [] ∧
        (Connect c ctx env loader (Connect c ctx env loader cache).cache).events =
          [Event.rlock, Event.runlock] ∧
        (Connect c ctx env loader (Connect c ctx env loader cache).cache).cache =
          (Connect c ctx env loader cache).cache := by
  obtain ⟨cl, hcl⟩ := connect_success_lookup c ctx env loader cache hok
  refine ⟨cl, hcl, ?_, ?_, ?_⟩ <;> rw [Connect_hit c ctx env loader _ cl hcl]

/-- Witness for C2 at a concrete region-only configuration. -/
theorem connect_second_call_hits_cache_witness :
    parseBoolValue sampleEnv.awsSdkLoadConfig = false ∧
    sampleConnector.config.GetAccessID = "" ∧
    (Connect sampleConnector sampleCtx sampleEnv okLoader []).err = none ∧
    ∃ cl : Client,
      cacheLookup (Connect sampleConnector sampleCtx sampleEnv okLoader []).cache
          (cacheKeyOf sampleConnector.config sampleEnv) = some (some cl) ∧
        (Connect sampleConnector sampleCtx sampleEnv okLoader
            (Connect sampleConnector sampleCtx sampleEnv okLoader []).cache).loadCalls =
          [] ∧
        (Connect sampleConnector sampleCtx sampleEnv okLoader
            (Connect sampleConnector sampleCtx sampleEnv okLoader []).cache).events =
          [Event.rlock, Event.runlock] ∧
        (Connect sampleConnector sampleCtx sampleEnv okLoader
            (Connect sampleConnector sampleCtx sampleEnv okLoader []).cache).cache =
          (Connect sampleConnector sampleCtx sampleEnv okLoader []).cache :=
  ⟨by decide, rfl, by decide,
    connect_second_call_hits_cache sampleConnector sampleCtx sampleEnv okLoader []
      (by decide) rfl (by decide)⟩

/-- Claim C3 counterexample: two configurations that differ in the secret
access key — an authentication-relevant field — produce the same cache key, so
differing configurations do not always get different keys. -/
theorem cacheKey_collision_on_secret :
    (⟨"r", "", "a", "s1", "tk"⟩ : Config) ≠ (⟨"r", "", "a", "s2", "tk"⟩ : Config) ∧
    (⟨"r", "", "a", "s1", "tk"⟩ : Config).GetSecretAccessKey ≠
      (⟨"r", "", "a", "s2", "tk"⟩ : Config).GetSecretAccessKey ∧
    cacheKeyOf ⟨"r", "", "a", "s1", "tk"⟩ ⟨""⟩ =
      cacheKeyOf ⟨"r", "", "a", "s2", "tk"⟩ ⟨""⟩ :=
  ⟨by decide, by decide, by decide⟩

/-- Claim C3 amended: the cache key is a function of the parsed environment
flag, the profile, the region and the access id alone, so configurations that
agree on those authenticate-relevant inputs get identical keys — but
configurations differing only in the secret access key or session token also
get identical keys. -/
theorem cacheKey_function_of_strategy_fields (c1 c2 : Config) (e1 e2 : Env)
    (hb : parseBoolValue e1.awsSdkLoadConfig = parseBoolValue e2.awsSdkLoadConfig)
    (hp : c1.GetAWSProfile = c2.GetAWSProfile)
    (hr : c1.GetRegion = c2.GetRegion)
    (ha : c1.GetAccessID = c2.GetAccessID) :
    cacheKeyOf c1 e1 = cacheKeyOf c2 e2 := by
  by_cases hflag : parseBoolValue e1.awsSdkLoadConfig = true
  · have hflag2 : parseBoolValue e2.awsSdkLoadConfig = true := by rw [← hb]; exact hflag
    simp [cacheKeyOf, resolveStrategy, hflag, hflag2, hp]
  · have hflag2 : ¬parseBoolValue e2.awsSdkLoadConfig = true := by rw [← hb]; exact hflag
    by_cases hacc : c1.GetAccessID = ""
    · have hacc2 : c2.GetAccessID = "" := by rw [← ha]; exact hacc
      simp [cacheKeyOf, resolveStrategy, hflag, hflag2, hacc, hacc2, hr]
    · have hacc2 : ¬c2.GetAccessID = "" := by rw [← ha]; exact hacc
      simp [cacheKeyOf, resolveStrategy, hflag, hflag2, hacc, hacc2, hr, ha]

/-- Witness for the amended C3: same strategy fields, different secrets, tokens
and raw flag strings. -/
theorem cacheKey_function_of_strategy_fields_witness :
    parseBoolValue (Env.mk "").awsSdkLoadConfig =
        parseBoolValue (Env.mk "0").awsSdkLoadConfig ∧
    (Config.mk "r" "" "a" "s1" "t1").GetAWSProfile =
        (Config.mk "r" "" "a" "s2" "t2").GetAWSProfile ∧
    (Config.mk "r" "" "a" "s1" "t1").GetRegion =
        (Config.mk "r" "" "a" "s2" "t2").GetRegion ∧
    (Config.mk "r" "" "a" "s1" "t1").GetAccessID =
        (Config.mk "r" "" "a" "s2" "t2").GetAccessID ∧
    cacheKeyOf ⟨"r", "", "a", "s1", "t1"⟩ ⟨""⟩ = cacheKeyOf ⟨"r", "", "a", "s2", "t2"⟩ ⟨"0"⟩ :=
  ⟨by decide, by decide, by decide, by decide,
    cacheKey_function_of_strategy_fields ⟨"r", "", "a", "s1", "t1"⟩
      ⟨"r", "", "a", "s2", "t2"⟩ ⟨""⟩ ⟨"0"⟩ (by decide) (by decide) (by decide) (by decide)⟩

/-- Claim C4: when external configuration loading fails, the failure counter is
incremented exactly once and is the last event before the error return, the
loader's error is returned unchanged, and no Connection — not even a partial
one — is produced. -/
theorem connect_failure_path (c : SQLConnector) (ctx : Ctx) (env : Env)
    (loader : Loader) (cache : Cache) (e : LoadErr)
    (hmiss : cacheLookup cache (cacheKeyOf c.config env) = none)
    (herr : loader (loadRequestOf c.config env) = Except.error e) :
    (Connect c ctx env loader cache).err = some e ∧
    (Connect c ctx env loader cache).conn = none ∧
    (Connect c ctx env loader cache).failureIncs = 1 ∧
    (Connect c ctx env loader cache).events =
      [Event.rlock, Event.runlock, Event.loadConfig (loadRequestOf c.config env),
        Event.incFailureCounter] := by
  rw [Connect_miss_error c ctx env loader cache e hmiss herr]
  exact ⟨rfl, rfl, rfl, rfl⟩

/-- Witness for C4 on an empty cache with an always-failing loader. -/
theorem connect_failure_path_witness :
    cacheLookup [] (cacheKeyOf sampleConnector.config sampleEnv) = none ∧
    failLoader (loadRequestOf sampleConnector.config sampleEnv) =
        Except.error "boom" ∧
    ((Connect sampleConnector sampleCtx sampleEnv failLoader []).err = some "boom" ∧
      (Connect sampleConnector sampleCtx sampleEnv failLoader []).conn = none ∧
      (Connect sampleConnector sampleCtx sampleEnv failLoader []).failureIncs = 1 ∧
      (Connect sampleConnector sampleCtx sampleEnv failLoader []).events =
        [Event.rlock, Event.runlock,
          Event.loadConfig (loadRequestOf sampleConnector.config sampleEnv),
          Event.incFailureCounter]) :=
  ⟨rfl, rfl,
    connect_failure_path sampleConnector sampleCtx sampleEnv failLoader [] "boom" rfl rfl⟩

/-- Claim C5 counterexample: on a cold-start cache miss the client-construction
step (`athena.NewFromConfig`, connector.go line 136) runs between `Lock` and
`Unlock` (lines 135, 138), i.e. while the write lock is held, so construction
does not happen outside every lock. -/
theorem connect_construction_inside_write_lock :
    constructionOutsideLocks
      (Connect sampleConnector sampleCtx sampleEnv okLoader []).events = false := by
  decide

/-- Claim C5 amended: in every cache-miss execution, configuration loading runs
with no lock held; only afterwards is the write lock taken, the client
constructed while the write lock is held, the handle stored, and the lock
released. -/
theorem connect_miss_lock_discipline (c : SQLConnector) (ctx : Ctx) (env : Env)
    (loader : Loader) (cache : Cache) (cfg : AwsConfig)
    (hmiss : cacheLookup cache (cacheKeyOf c.config env) = none)
    (hok : loader (loadRequestOf c.config env) = Except.ok cfg) :
    (Connect c ctx env loader cache).events =
      [Event.rlock, Event.runlock, Event.loadConfig (loadRequestOf c.config env),
        Event.lock, Event.newFromConfig, Event.store (cacheKeyOf c.config env),
        Event.unlock] ∧
    loadsOutsideLocks (Connect c ctx env loader cache).events = true ∧
    constructionUnderWriteLock (Connect c ctx env loader cache).events = true := by
  rw [Connect_miss_ok c ctx env loader cache cfg hmiss hok]
  exact ⟨rfl, rfl, rfl⟩

/-- Witness for the amended C5 on an empty cache with a succeeding loader. -/
theorem connect_miss_lock_discipline_witness :
    cacheLookup [] (cacheKeyOf sampleConnector.config sampleEnv) = none ∧
    okLoader (loadRequestOf sampleConnector.config sampleEnv) = Except.ok ⟨1⟩ ∧
    ((Connect sampleConnector sampleCtx sampleEnv okLoader []).events =
        [Event.rlock, Event.runlock,
          Event.loadConfig (loadRequestOf sampleConnector.config sampleEnv),
          Event.lock, Event.newFromConfig,
          Event.store (cacheKeyOf sampleConnector.config sampleEnv), Event.unlock] ∧
      loadsOutsideLocks (Connect sampleConnector sampleCtx sampleEnv okLoader []).events =
          true ∧
      constructionUnderWriteLock
          (Connect sampleConnector sampleCtx sampleEnv okLoader []).events = true) :=
  ⟨rfl, rfl,
    connect_miss_lock_discipline sampleConnector sampleCtx sampleEnv okLoader [] ⟨1⟩
      rfl rfl⟩

/-- Claim C6: starting from an empty cache, after any sequence of `Connect`
operations the cache never holds a nil handle under any key, and an entry once
present is never removed or replaced. -/
theorem cache_no_nil_entries_and_persistent (ops more : List Op) (k : String)
    (v : Option Client) :
    CacheWF (runConnects ops []) ∧
    (cacheLookup (runConnects ops []) k = some v →
      cacheLookup (runConnects (ops ++ more) []) k = some v) := by
  have hwf0 : CacheWF ([] : Cache) := fun p hp => absurd hp (List.not_mem_nil p)
  obtain ⟨hwf, _⟩ := runConnects_preserves ops [] hwf0
  refine ⟨hwf, fun h => ?_⟩
  rw [runConnects_append]
  exact (runConnects_preserves more (runConnects ops []) hwf).2 k v h

/-- Witness for C6: one successful call stores a non-nil handle that survives a
further call. -/
theorem cache_no_nil_entries_and_persistent_witness :
    CacheWF (runConnects [sampleOp] []) ∧
    cacheLookup (runConnects [sampleOp] []) "r##" = some (some ⟨⟨1⟩⟩) ∧
    cacheLookup (runConnects ([sampleOp] ++ [sampleOp]) []) "r##" = some (some ⟨⟨1⟩⟩) :=
  ⟨(cache_no_nil_entries_and_persistent [sampleOp] [sampleOp] "r##" (some ⟨⟨1⟩⟩)).1,
    by decide,
    (cache_no_nil_entries_and_persistent [sampleOp] [sampleOp] "r##" (some ⟨⟨1⟩⟩)).2
      (by decide)⟩

/-- Claim C7: `CreateWGRemotely` issues a request with the Tags field entirely
absent when the tag set is empty and with exactly the workgroup's tags when it
is non-empty; both shapes carry the stored name and configuration, and the
remote call's error is returned unchanged. -/
theorem createWG_request_shape (w : Workgroup)
    (svc : CreateWorkGroupInput → Option RemoteErr) :
    (w.Tags.Get = [] → (w.CreateWGRemotely svc).1.Tags = none) ∧
    (w.Tags.Get ≠ [] → (w.CreateWGRemotely svc).1.Tags = some w.Tags.Get) ∧
    (w.CreateWGRemotely svc).1.Name = some w.Name ∧
    (w.CreateWGRemotely svc).1.Configuration = w.Config ∧
    (w.CreateWGRemotely svc).2 = svc (w.CreateWGRemotely svc).1 := by
  by_cases h : (w.Tags.Get).length = 0
  · have he : w.Tags.Get = [] := List.length_eq_zero.mp h
    refine ⟨fun _ => ?_, fun hne => absurd he hne, ?_, ?_, ?_⟩ <;>
      simp [Workgroup.CreateWGRemotely, h]
  · have hne : w.Tags.Get ≠ [] := by
      intro he
      rw [he] at h
      exact h rfl
    refine ⟨fun he => absurd he hne, fun _ => ?_, ?_, ?_, ?_⟩ <;>
      simp [Workgroup.CreateWGRemotely, h]

/-- Witness for C7 with a one-tag workgroup. -/
theorem createWG_request_shape_witness :
    sampleWG.Tags.Get ≠ [] ∧
    (sampleWG.CreateWGRemotely sampleSvc).1.Tags = some sampleWG.Tags.Get :=
  ⟨by decide, (createWG_request_shape sampleWG sampleSvc).2.1 (by decide)⟩

/-- Claim C8: `getWG` with a nil client handle returns the designated nil-API
error and performs no remote call; with a non-nil handle it performs the remote
get-workgroup call and returns either the remote descriptor on success or the
propagated remote error on failure, never both. -/
theorem getWG_nil_api_and_propagation (nm : String)
    (remote : GetWorkGroupInput → Except RemoteErr GetWorkGroupOutput) :
    getWG none nm remote = ⟨none, some ErrAthenaNilAPI, none⟩ ∧
    ∀ cl : Client,
      (∀ out, remote ⟨some nm⟩ = Except.ok out →
        getWG (some cl) nm remote = ⟨out.WorkGroup, none, some ⟨some nm⟩⟩) ∧
      (∀ e, remote ⟨some nm⟩ = Except.error e →
        getWG (some cl) nm remote = ⟨none, some (WGErr.remote e), some ⟨some nm⟩⟩) := by
  refine ⟨rfl, fun cl => ⟨fun out hout => ?_, fun e he => ?_⟩⟩
  · unfold getWG
    rw [hout]
  · unfold getWG
    rw [he]

/-- Witness for C8: nil handle, and a non-nil handle with a succeeding remote. -/
theorem getWG_nil_api_and_propagation_witness :
    getWG none "wg1" sampleRemote = ⟨none, some ErrAthenaNilAPI, none⟩ ∧
    sampleRemote ⟨some "wg1"⟩ = Except.ok ⟨some ⟨7⟩⟩ ∧
    getWG (some ⟨⟨1⟩⟩) "wg1" sampleRemote =
      ⟨(⟨some ⟨7⟩⟩ : GetWorkGroupOutput).WorkGroup, none, some ⟨some "wg1"⟩⟩ :=
  ⟨(getWG_nil_api_and_propagation "wg1" sampleRemote).1, rfl,
    ((getWG_nil_api_and_propagation "wg1" sampleRemote).2 ⟨⟨1⟩⟩).1 ⟨some ⟨7⟩⟩ rfl⟩

/-- Claim C9: when the cache already holds a (non-nil) handle for the resolved
key, `Connect` cannot fail: the error stays nil, the failure counter is never
bumped, no loading or construction occurs, the cache is unchanged, and a
Connection wrapping the cached handle is returned. -/
theorem connect_cache_hit_cannot_fail (c : SQLConnector) (ctx : Ctx) (env : Env)
    (loader : Loader) (cache : Cache) (cl : Client)
    (h : cacheLookup cache (cacheKeyOf c.config env) = some (some cl)) :
    (Connect c ctx env loader cache).err = none ∧
    (Connect c ctx env loader cache).failureIncs = 0 ∧
    (Connect c ctx env loader cache).loadCalls = [] ∧
    (Connect c ctx env loader cache).cache = cache ∧
    (Connect c ctx env loader cache).conn =
      some ⟨some cl, { c with tracer := tracerFor ctx c.config }⟩ := by
  rw [Connect_hit c ctx env loader cache cl h]
  exact ⟨rfl, rfl, rfl, rfl, rfl⟩

/-- Witness for C9: a pre-populated cache and an always-failing loader still
produce a successful connection. -/
theorem connect_cache_hit_cannot_fail_witness :
    cacheLookup [("r##", some ⟨⟨1⟩⟩)] (cacheKeyOf sampleConnector.config sampleEnv) =
        some (some ⟨⟨1⟩⟩) ∧
    ((Connect sampleConnector sampleCtx sampleEnv failLoader
        [("r##", some ⟨⟨1⟩⟩)]).err = none ∧
      (Connect sampleConnector sampleCtx sampleEnv failLoader
          [("r##", some ⟨⟨1⟩⟩)]).failureIncs = 0 ∧
      (Connect sampleConnector sampleCtx sampleEnv failLoader
          [("r##", some ⟨⟨1⟩⟩)]).loadCalls = [] ∧
      (Connect sampleConnector sampleCtx sampleEnv failLoader
          [("r##", some ⟨⟨1⟩⟩)]).cache = [("r##", some ⟨⟨1⟩⟩)] ∧
      (Connect sampleConnector sampleCtx sampleEnv failLoader
          [("r##", some ⟨⟨1⟩⟩)]).conn =
        some ⟨some ⟨⟨1⟩⟩,
          { sampleConnector with tracer := tracerFor sampleCtx sampleConnector.config }⟩) :=
  ⟨by decide,
    connect_cache_hit_cannot_fail sampleConnector sampleCtx sampleEnv failLoader
      [("r##", some ⟨⟨1⟩⟩)] ⟨⟨1⟩⟩ (by decide)⟩

/-- Claim C10: every `Connect` call — cache hits and override-free contexts
included — replaces the connector's tracer with a freshly constructed default
observability object with the context's metrics-scope and logger overrides
applied (`tracerFor`), and modifies no other connector field: the resulting
connector is exactly the original configuration with the recomputed tracer. -/
theorem connect_overwrites_tracer (c : SQLConnector) (ctx : Ctx) (env : Env)
    (loader : Loader) (cache : Cache) :
    (Connect c ctx env loader cache).connector =
      { config := c.config, tracer := tracerFor ctx c.config } := by
  rcases hl : cacheLookup cache (cacheKeyOf c.config env) with _ | cl
  · rcases hr : loader (loadRequestOf c.config env) with e | cfg
    · rw [Connect_miss_error c ctx env loader cache e hl hr]
    · rw [Connect_miss_ok c ctx env loader cache cfg hl hr]
  · rcases cl with _ | cl0
    · rw [Connect_hit_nil c ctx env loader cache hl]
    · rw [Connect_hit c ctx env loader cache cl0 hl]

end Athenadriver
